import Mathlib

/-!
Shallow embedding of the fuel-voucher upload-link core of the food-bank
application (`FoodBank_Testing.py`): the data model (`Client`, `FuelRequest`),
request issuance (`send_sms_requests`, per-client loop body), and the upload
handler (`upload_documents`, route `/upload/<unique_link>`).

Modelling conventions:
* Timestamps are natural numbers (seconds).  The Python code reads the clock
  several times (`datetime.now()` for `expires_at`, `datetime.utcnow` for the
  `created_at` column default, `datetime.now(UTC)` for
  `submission_timestamp`); each distinct read is a distinct parameter.
* The database is a list of `FuelRequest` rows; SQLAlchemy's in-place mutation
  plus commit is modelled by replacing the row with the mutated copy, and a
  request that ends in `flash(...); redirect(...)` without reaching
  `db.session.commit()` leaves the list unchanged.
* Columns the modelled operations never read or write (`sms_sent`,
  `sms_sent_at`, `sms_sid`, `staff_notes`) and the `SMSLog` table are omitted;
  the notifier itself (`send_sms_to_client`) only touches those columns.
* File-system writes (`open(...).write`, `file.save`) are I/O side effects
  outside the embedding; only the filename fields stored on the row appear.
-/

namespace FoodBank

/-- Row of the `Client` table (the columns the core reads). -/
structure Client where
  id : Nat
  name : String
  phoneNumber : String
  hasCameraPhone : Bool
  gdprConsent : Bool
deriving DecidableEq

/-- Row of the `FuelRequest` table. -/
structure FuelRequest where
  id : Nat
  clientId : Nat
  uniqueLink : String
  expiresAt : Nat
  status : String
  createdAt : Nat
  documentsUploaded : Bool
  meterReadingFilename : Option String
  identityPhotoFilename : Option String
  phoneTypeUsed : Option String
  submissionTimestamp : Option Nat
  meterReadingText : Option String
  idType : Option String
  idDetails : Option String
  clientPostcode : Option String
  missingDocumentsReason : Option String
deriving DecidableEq

/-- `timedelta(hours=48)` in seconds. -/
def hours48 : Nat := 48 * 3600

/-- The `FuelRequest(...)` constructor call in `send_sms_requests`:
`expires_at = datetime.now() + timedelta(hours=48)` uses the clock read
`tNow`; the `created_at` column default `datetime.utcnow` is evaluated
separately at flush time, modelled by the second clock read `tUtc`.
All other columns take their declared defaults. -/
def mkFuelRequest (reqId : Nat) (client : Client) (link : String)
    (tNow tUtc : Nat) : FuelRequest where
  id := reqId
  clientId := client.id
  uniqueLink := link
  expiresAt := tNow + hours48
  status := "pending"
  createdAt := tUtc
  documentsUploaded := false
  meterReadingFilename := none
  identityPhotoFilename := none
  phoneTypeUsed := none
  submissionTimestamp := none
  meterReadingText := none
  idType := none
  idDetails := none
  clientPostcode := none
  missingDocumentsReason := none

/-- Outcome of processing one selected client inside `send_sms_requests`. -/
inductive IssueResult where
  | issued (newRequest : FuelRequest)
  | consentRequired
deriving DecidableEq

/-- Body of the per-client loop of `send_sms_requests` for one client that
exists: if `client.gdpr_consent` is falsy the client is skipped with a
"no GDPR consent" warning and nothing is added or changed; otherwise a fresh
`FuelRequest` is constructed, flushed and committed.  The simulated notifier
(`send_sms_to_client`) always reports success and only writes the omitted
`sms_*` bookkeeping columns, so it does not appear here. -/
def send_sms_request_for_client (store : List FuelRequest) (client : Client)
    (reqId : Nat) (link : String) (tNow tUtc : Nat) :
    IssueResult × List FuelRequest :=
  if client.gdprConsent = false then
    (.consentRequired, store)
  else
    (.issued (mkFuelRequest reqId client link tNow tUtc),
     store ++ [mkFuelRequest reqId client link tNow tUtc])

/-- Python `str.strip()`: drop whitespace from both ends (structural
recursion on the character list, so that concrete instances evaluate). -/
def strip (s : String) : String :=
  String.mk
    (((s.data.dropWhile Char.isWhitespace).reverse.dropWhile
        Char.isWhitespace).reverse)

/-- Python `str.lower()` (ASCII case folding, as used on filename
extensions). -/
def lower (s : String) : String :=
  String.mk (s.data.map Char.toLower)

/-- The keypad-path form fields of the upload page, as extracted by
`request.form.get(..., '')` (a missing field reads as the empty string);
`cannot_upload_pictures` is the checkbox test `== 'on'`. -/
structure ManualForm where
  clientName : String
  clientPhone : String
  clientPostcode : String
  meterReadingText : String
  idType : String
  otherIdType : String
  idDetails : String
  cannotUploadPictures : Bool
  missingDocumentsReason : String
deriving DecidableEq

/-- An uploaded file as the handler sees it: its client-supplied filename and
its payload size in bytes (the handler never inspects the payload). -/
structure UploadedFile where
  filename : String
  size : Nat
deriving DecidableEq

/-- A POST body to `/upload/<unique_link>`: the `phone_type` discriminator
(`request.form.get('phone_type')`, `none` when absent), the manual-path
fields, and the two optional file parts of `request.files`. -/
structure UploadForm where
  phoneType : Option String
  manual : ManualForm
  meterReading : Option UploadedFile
  identityPhoto : Option UploadedFile
deriving DecidableEq

/-- Observable outcome of one call to `upload_documents`: the 404 page for an
unknown token, the 410 expired page, rendering the upload form (GET, or a POST
that matches no `phone_type` branch, or after a success flash), a
`flash(message, 'danger'); redirect(request.url)` validation failure, or a
success flash from one of the two submission branches. -/
inductive UploadResult where
  | notFound
  | expired
  | renderForm
  | validationError (message : String)
  | manualSuccess
  | photoSuccess
deriving DecidableEq

/-- HTTP status code attached to each outcome in the source: 404 for the
invalid-link page, 410 for the expired page, 302 for the
`redirect(request.url)` after a validation flash, 200 otherwise. -/
def httpStatus : UploadResult → Nat
  | .notFound => 404
  | .expired => 410
  | .validationError _ => 302
  | _ => 200

/-- `True` exactly on the `validationError` outcomes. -/
def isValidationError : UploadResult → Bool
  | .validationError _ => true
  | _ => false

/-- The allow-list `allowed_extensions = {'png', 'jpg', 'jpeg', 'gif'}`. -/
def allowedExtensions : List String := ["png", "jpg", "jpeg", "gif"]

/-- `filename.rsplit('.', 1)[1]`: the characters after the last dot. -/
def extAfterLastDot (filename : String) : String :=
  String.mk ((filename.data.reverse.takeWhile (fun c => c != '.')).reverse)

/-- The nested `allowed_file` helper of the smartphone branch:
`'.' in filename and filename.rsplit('.', 1)[1].lower() in allowed_extensions`. -/
def allowed_file (filename : String) : Bool :=
  filename.data.contains '.' &&
    allowedExtensions.contains (lower (extAfterLastDot filename))

/-- The `id_type` value after the "other" merge step: if `id_type == 'other'`
and the (stripped) free-text `other_id_type` is non-empty, the stored type
becomes `"other: " + other_id_type`; otherwise it stays as typed. -/
def effective_id_type (m : ManualForm) : String :=
  if strip m.idType = "other" ∧ strip m.otherIdType ≠ "" then
    "other: " ++ strip m.otherIdType
  else
    strip m.idType

/-- The row as mutated and committed by a successful keypad submission:
payload fields, `documents_uploaded = True`, `phone_type_used = 'keypad'`,
`submission_timestamp = datetime.now(UTC)` (clock read `tSub`),
`status = 'completed'`, and both filename columns set to the per-request
manual-entry text file `manual_entry_<id>.txt`. `missing_documents_reason` is
only written when the checkbox was ticked. -/
def keypadCompleted (fr : FuelRequest) (m : ManualForm) (tSub : Nat) :
    FuelRequest :=
  { fr with
    documentsUploaded := true
    phoneTypeUsed := some "keypad"
    submissionTimestamp := some tSub
    status := "completed"
    meterReadingText := some (strip m.meterReadingText)
    idType := some (effective_id_type m)
    idDetails := some (strip m.idDetails)
    clientPostcode := some (strip m.clientPostcode)
    missingDocumentsReason :=
      if m.cannotUploadPictures then some (strip m.missingDocumentsReason)
      else fr.missingDocumentsReason
    meterReadingFilename := some ("manual_entry_" ++ toString fr.id ++ ".txt")
    identityPhotoFilename := some ("manual_entry_" ++ toString fr.id ++ ".txt") }

/-- The keypad (`phone_type == 'keypad'`) branch of the POST handler.  Fields
are `.strip()`ed at extraction; the `"other"` merge happens before the
`not all([...])` requiredness check; missing `missing_documents_reason` with
the checkbox ticked is the second check; otherwise the row is mutated and
committed.  Returns the outcome and the row as left in the database. -/
def processKeypad (fr : FuelRequest) (m : ManualForm) (tSub : Nat) :
    UploadResult × FuelRequest :=
  if strip m.clientName = "" ∨ strip m.clientPhone = "" ∨
      strip m.meterReadingText = "" ∨ effective_id_type m = "" ∨
      strip m.idDetails = "" then
    (.validationError "Please fill in all required fields", fr)
  else if m.cannotUploadPictures = true ∧ strip m.missingDocumentsReason = "" then
    (.validationError "Please select a reason why you cannot upload pictures", fr)
  else
    (.manualSuccess, keypadCompleted fr m tSub)

/-- The row as mutated and committed by a successful smartphone submission:
`documents_uploaded = True`, `phone_type_used = 'smartphone'`,
`submission_timestamp` from clock read `tSub`, `status = 'completed'`.  The
branch saves the two files to disk but stores neither filename column. -/
def photoCompleted (fr : FuelRequest) (tSub : Nat) : FuelRequest :=
  { fr with
    documentsUploaded := true
    phoneTypeUsed := some "smartphone"
    submissionTimestamp := some tSub
    status := "completed" }

/-- The smartphone (`phone_type == 'smartphone'`) branch of the POST handler:
both file parts must be present in `request.files`, both filenames non-empty,
both filenames accepted by `allowed_file`; then the row is mutated and
committed. -/
def processSmartphone (fr : FuelRequest) (meterReading identityPhoto : Option UploadedFile)
    (tSub : Nat) : UploadResult × FuelRequest :=
  match meterReading, identityPhoto with
  | none, _ =>
    (.validationError "Please upload both meter reading and identity photo", fr)
  | _, none =>
    (.validationError "Please upload both meter reading and identity photo", fr)
  | some mf, some idf =>
    if mf.filename = "" ∨ idf.filename = "" then
      (.validationError "Please select both files", fr)
    else if (allowed_file mf.filename && allowed_file idf.filename) = false then
      (.validationError "Only image files (PNG, JPG, JPEG, GIF) are allowed", fr)
    else
      (.photoSuccess, photoCompleted fr tSub)

/-- `request.method` of the route. -/
inductive HttpMethod where
  | get
  | post
deriving DecidableEq

/-- `FuelRequest.query.filter_by(unique_link=unique_link).first()`. -/
def findRequest (store : List FuelRequest) (link : String) : Option FuelRequest :=
  store.find? (fun fr => fr.uniqueLink == link)

/-- Committing an in-place SQLAlchemy mutation: the row with the mutated
row's primary key is replaced by the mutated row. -/
def updateRequest (store : List FuelRequest) (fr : FuelRequest) :
    List FuelRequest :=
  store.map (fun r => if r.id = fr.id then fr else r)

/-- Body of `upload_documents` after the token has been resolved to `fr`:
the expiry gate `fuel_request.expires_at < datetime.now()` (clock read
`tNow`) runs before anything else, for GET and POST alike; a GET renders the
form; a POST dispatches on `phone_type`, where any value other than
`'keypad'`/`'smartphone'` (including a missing one) matches neither branch
and falls through to the final form render with no flash.  Only the success
branches reach `db.session.commit()`; every other outcome leaves the
database unchanged. -/
def handleRequest (store : List FuelRequest) (fr : FuelRequest)
    (method : HttpMethod) (form : UploadForm) (tNow tSub : Nat) :
    UploadResult × List FuelRequest :=
  if fr.expiresAt < tNow then
    (.expired, store)
  else
    match method with
    | .get => (.renderForm, store)
    | .post =>
      if form.phoneType = some "keypad" then
        match processKeypad fr form.manual tSub with
        | (.manualSuccess, fr') => (.manualSuccess, updateRequest store fr')
        | (res, _) => (res, store)
      else if form.phoneType = some "smartphone" then
        match processSmartphone fr form.meterReading form.identityPhoto tSub with
        | (.photoSuccess, fr') => (.photoSuccess, updateRequest store fr')
        | (res, _) => (res, store)
      else
        (.renderForm, store)

/-- The route `/upload/<unique_link>` (`upload_documents`): resolve the token
(404 when unknown), then `handleRequest`. -/
def upload_documents (store : List FuelRequest) (link : String)
    (method : HttpMethod) (form : UploadForm) (tNow tSub : Nat) :
    UploadResult × List FuelRequest :=
  match findRequest store link with
  | none => (.notFound, store)
  | some fr => handleRequest store fr method form tNow tSub

/-- The status/documents invariant of claim C9: a row is `completed` exactly
when its `documents_uploaded` flag is set. -/
def statusDocsInv (fr : FuelRequest) : Prop :=
  fr.status = "completed" ↔ fr.documentsUploaded = true

instance (fr : FuelRequest) : Decidable (statusDocsInv fr) := by
  unfold statusDocsInv
  infer_instance

/-- The conjunction of conditions under which the keypad branch's two checks
both pass (all required stripped fields non-empty; a reason given whenever
the cannot-upload checkbox is ticked). -/
def ValidManualForm (m : ManualForm) : Prop :=
  strip m.clientName ≠ "" ∧ strip m.clientPhone ≠ "" ∧
  strip m.meterReadingText ≠ "" ∧ effective_id_type m ≠ "" ∧
  strip m.idDetails ≠ "" ∧
  (m.cannotUploadPictures = true → strip m.missingDocumentsReason ≠ "")

instance (m : ManualForm) : Decidable (ValidManualForm m) := by
  unfold ValidManualForm
  infer_instance

/-- Row-wise invariant quantified over the whole table. -/
def StoreInv (store : List FuelRequest) : Prop :=
  ∀ fr ∈ store, statusDocsInv fr

instance (store : List FuelRequest) : Decidable (StoreInv store) := by
  unfold StoreInv
  infer_instance

/-- A sample consenting client. -/
def demoClient : Client :=
  { id := 1, name := "Alice", phoneNumber := "+447700900000",
    hasCameraPhone := true, gdprConsent := true }

/-- A sample client without GDPR consent. -/
def noConsentClient : Client :=
  { id := 2, name := "Bob", phoneNumber := "+447700900001",
    hasCameraPhone := true, gdprConsent := false }

/-- A freshly issued pending request for `demoClient`, token `"tok"`,
issued at time 0. -/
def pendingDemo : FuelRequest := mkFuelRequest 1 demoClient "tok" 0 0

/-- A fully valid keypad form. -/
def demoManual : ManualForm :=
  { clientName := "Alice", clientPhone := "+447700900000",
    clientPostcode := "SE13 5AB", meterReadingText := "12345",
    idType := "passport", otherIdType := "", idDetails := "AB1234567CD",
    cannotUploadPictures := false, missingDocumentsReason := "" }

/-- Wrap a manual form into a keypad POST body. -/
def keypadForm (m : ManualForm) : UploadForm :=
  { phoneType := some "keypad", manual := m,
    meterReading := none, identityPhoto := none }

def c1FirstManual : ManualForm :=
  { demoManual with idDetails := "PASSPORT 111111111" }

def c1SecondManual : ManualForm :=
  { demoManual with idDetails := "PASSPORT 222222222" }

def c1Completed : FuelRequest := keypadCompleted pendingDemo c1FirstManual 10

def c4ShortManual : ManualForm := { demoManual with idDetails := "short" }

def c5OtherManual : ManualForm :=
  { demoManual with
    idType := "other"
    otherIdType := ""
    idDetails := "DL 99887766554" }

def c8FirstManual : ManualForm :=
  { demoManual with meterReadingText := "11111" }

def c8SecondManual : ManualForm :=
  { demoManual with meterReadingText := "22222" }

def c8Winner : FuelRequest := keypadCompleted pendingDemo c8FirstManual 10

def c6Meter : UploadedFile := { filename := "meter.jpg", size := 1024 }

def c6Identity : UploadedFile := { filename := "identity.jpg", size := 2048 }

def c6TxtMeter : UploadedFile := { filename := "notes.txt", size := 512 }

def c6PhotoForm : UploadForm :=
  { phoneType := some "smartphone", manual := demoManual,
    meterReading := some c6Meter, identityPhoto := some c6Identity }

def c6TxtForm : UploadForm :=
  { phoneType := some "smartphone", manual := demoManual,
    meterReading := some c6TxtMeter, identityPhoto := some c6Identity }

theorem upload_documents_found (store : List FuelRequest) (link : String)
    (method : HttpMethod) (form : UploadForm) (tNow tSub : Nat)
    (fr : FuelRequest) (hfind : findRequest store link = some fr) :
    upload_documents store link method form tNow tSub =
      handleRequest store fr method form tNow tSub := by
  simp [upload_documents, hfind]

theorem upload_documents_notFound (store : List FuelRequest) (link : String)
    (method : HttpMethod) (form : UploadForm) (tNow tSub : Nat)
    (hfind : findRequest store link = none) :
    upload_documents store link method form tNow tSub = (.notFound, store) := by
  simp [upload_documents, hfind]

theorem processKeypad_valid (fr : FuelRequest) (m : ManualForm) (tSub : Nat)
    (h : ValidManualForm m) :
    processKeypad fr m tSub = (.manualSuccess, keypadCompleted fr m tSub) := by
  obtain ⟨h1, h2, h3, h4, h5, h6⟩ := h
  unfold processKeypad
  rw [if_neg, if_neg]
  · rintro ⟨hc, hr⟩
    exact h6 hc hr
  · rintro (h | h | h | h | h) <;> simp_all

theorem handleRequest_keypad_valid (store : List FuelRequest)
    (fr : FuelRequest) (form : UploadForm) (tNow tSub : Nat)
    (hexp : ¬ fr.expiresAt < tNow) (hpt : form.phoneType = some "keypad")
    (hval : ValidManualForm form.manual) :
    handleRequest store fr .post form tNow tSub =
      (.manualSuccess, updateRequest store (keypadCompleted fr form.manual tSub)) := by
  unfold handleRequest
  rw [if_neg hexp]
  simp [hpt, processKeypad_valid fr form.manual tSub hval]

theorem keypadCompleted_id (fr : FuelRequest) (m : ManualForm) (t : Nat) :
    (keypadCompleted fr m t).id = fr.id := rfl

theorem keypadCompleted_uniqueLink (fr : FuelRequest) (m : ManualForm)
    (t : Nat) : (keypadCompleted fr m t).uniqueLink = fr.uniqueLink := rfl

theorem keypadCompleted_expiresAt (fr : FuelRequest) (m : ManualForm)
    (t : Nat) : (keypadCompleted fr m t).expiresAt = fr.expiresAt := rfl

theorem findRequest_singleton (fr : FuelRequest) (link : String)
    (h : fr.uniqueLink = link) : findRequest [fr] link = some fr := by
  simp [findRequest, h]

theorem updateRequest_singleton (fr fr' : FuelRequest)
    (hid : fr.id = fr'.id) : updateRequest [fr] fr' = [fr'] := by
  simp [updateRequest, hid]

theorem processKeypad_missing (fr : FuelRequest) (m : ManualForm) (tSub : Nat)
    (h : strip m.clientName = "" ∨ strip m.clientPhone = "" ∨
      strip m.meterReadingText = "" ∨ effective_id_type m = "" ∨
      strip m.idDetails = "") :
    processKeypad fr m tSub =
      (.validationError "Please fill in all required fields", fr) := by
  unfold processKeypad
  rw [if_pos h]

theorem allowed_file_of_jpg (f : String) (b : List Char)
    (h : f.data = b ++ ('.' :: 'j' :: 'p' :: 'g' :: [])) :
    allowed_file f = true := by
  simp [allowed_file, extAfterLastDot, h, List.reverse_append, List.contains,
    List.any_append, lower, allowedExtensions]

theorem ne_empty_of_jpg (f : String) (b : List Char)
    (h : f.data = b ++ ('.' :: 'j' :: 'p' :: 'g' :: [])) : f ≠ "" := by
  intro he
  subst he
  simp at h

theorem processSmartphone_empty_name (fr : FuelRequest)
    (mf idf : UploadedFile) (tSub : Nat)
    (hemp : mf.filename = "" ∨ idf.filename = "") :
    processSmartphone fr (some mf) (some idf) tSub =
      (.validationError "Please select both files", fr) := by
  simp only [processSmartphone]
  rw [if_pos hemp]

theorem processSmartphone_ext_rejected (fr : FuelRequest)
    (mf idf : UploadedFile) (tSub : Nat)
    (hne : ¬ (mf.filename = "" ∨ idf.filename = ""))
    (hbad : allowed_file mf.filename = false ∨
      allowed_file idf.filename = false) :
    processSmartphone fr (some mf) (some idf) tSub =
      (.validationError "Only image files (PNG, JPG, JPEG, GIF) are allowed",
       fr) := by
  simp only [processSmartphone]
  rw [if_neg hne, if_pos]
  rcases hbad with h | h <;> simp [h]

theorem processSmartphone_ok (fr : FuelRequest) (mf idf : UploadedFile)
    (tSub : Nat) (h1 : mf.filename ≠ "") (h2 : idf.filename ≠ "")
    (ha : allowed_file mf.filename = true)
    (hb : allowed_file idf.filename = true) :
    processSmartphone fr (some mf) (some idf) tSub =
      (.photoSuccess, photoCompleted fr tSub) := by
  simp only [processSmartphone]
  rw [if_neg, if_neg]
  · simp [ha, hb]
  · rintro (h | h)
    · exact h1 h
    · exact h2 h

theorem handleRequest_smartphone (store : List FuelRequest)
    (fr : FuelRequest) (form : UploadForm) (tNow tSub : Nat)
    (hexp : ¬ fr.expiresAt < tNow)
    (hpt : form.phoneType = some "smartphone") :
    handleRequest store fr .post form tNow tSub =
      (match processSmartphone fr form.meterReading form.identityPhoto tSub with
       | (.photoSuccess, fr') => (.photoSuccess, updateRequest store fr')
       | (res, _) => (res, store)) := by
  unfold handleRequest
  rw [if_neg hexp]
  simp [hpt]

theorem mem_updateRequest (store : List FuelRequest) (fr' r : FuelRequest)
    (h : r ∈ updateRequest store fr') : r = fr' ∨ r ∈ store := by
  simp only [updateRequest, List.mem_map] at h
  obtain ⟨a, ha, rfl⟩ := h
  by_cases hid : a.id = fr'.id
  · simp [hid]
  · simp [hid, ha]

theorem statusDocsInv_mkFuelRequest (reqId : Nat) (client : Client)
    (link : String) (tNow tUtc : Nat) :
    statusDocsInv (mkFuelRequest reqId client link tNow tUtc) := by
  simp [statusDocsInv, mkFuelRequest]

theorem statusDocsInv_keypadCompleted (fr : FuelRequest) (m : ManualForm)
    (t : Nat) : statusDocsInv (keypadCompleted fr m t) := by
  simp [statusDocsInv, keypadCompleted]

theorem statusDocsInv_photoCompleted (fr : FuelRequest) (t : Nat) :
    statusDocsInv (photoCompleted fr t) := by
  simp [statusDocsInv, photoCompleted]

theorem processKeypad_cases (fr : FuelRequest) (m : ManualForm) (tSub : Nat) :
    processKeypad fr m tSub = (.manualSuccess, keypadCompleted fr m tSub) ∨
    ∃ msg, processKeypad fr m tSub = (.validationError msg, fr) := by
  unfold processKeypad
  by_cases hA : strip m.clientName = "" ∨ strip m.clientPhone = "" ∨
      strip m.meterReadingText = "" ∨ effective_id_type m = "" ∨
      strip m.idDetails = ""
  · right
    exact ⟨_, by rw [if_pos hA]⟩
  · rw [if_neg hA]
    by_cases hB : m.cannotUploadPictures = true ∧
        strip m.missingDocumentsReason = ""
    · right
      exact ⟨_, by rw [if_pos hB]⟩
    · left
      rw [if_neg hB]

theorem processSmartphone_cases (fr : FuelRequest)
    (omf oidf : Option UploadedFile) (tSub : Nat) :
    processSmartphone fr omf oidf tSub =
      (.photoSuccess, photoCompleted fr tSub) ∨
    ∃ msg, processSmartphone fr omf oidf tSub =
      (.validationError msg, fr) := by
  cases omf with
  | none =>
    right
    cases oidf with
    | none => exact ⟨_, rfl⟩
    | some idf => exact ⟨_, rfl⟩
  | some mf =>
    cases oidf with
    | none =>
      right
      exact ⟨_, rfl⟩
    | some idf =>
      by_cases h1 : mf.filename = "" ∨ idf.filename = ""
      · right
        exact ⟨_, processSmartphone_empty_name fr mf idf tSub h1⟩
      · by_cases h2 : (allowed_file mf.filename &&
            allowed_file idf.filename) = false
        · right
          have heq : processSmartphone fr (some mf) (some idf) tSub =
              (.validationError
                "Only image files (PNG, JPG, JPEG, GIF) are allowed", fr) := by
            simp only [processSmartphone]
            rw [if_neg h1, if_pos h2]
          exact ⟨_, heq⟩
        · left
          simp only [processSmartphone]
          rw [if_neg h1, if_neg h2]

/-- C1: counterexample to rejection of repeat submission.  After a first
successful submission leaves the request `completed`, a second submission on
the same token is not rejected: it returns success again (no
already-completed error, no validation error) and replaces the stored
`id_details` and `submission_timestamp` of the first submission. -/
theorem c1_resubmit_counterexample :
    upload_documents [pendingDemo] "tok" .post (keypadForm c1FirstManual)
        10 10 = (.manualSuccess, [c1Completed]) ∧
    c1Completed.status = "completed" ∧
    upload_documents [c1Completed] "tok" .post (keypadForm c1SecondManual)
        20 20 =
      (.manualSuccess, [keypadCompleted c1Completed c1SecondManual 20]) ∧
    isValidationError
      (upload_documents [c1Completed] "tok" .post (keypadForm c1SecondManual)
        20 20).1 = false ∧
    (keypadCompleted c1Completed c1SecondManual 20).idDetails ≠
      c1Completed.idDetails ∧
    (keypadCompleted c1Completed c1SecondManual 20).submissionTimestamp ≠
      c1Completed.submissionTimestamp := by
  refine ⟨by decide, by decide, by decide, by decide, by decide, by decide⟩

/-- C1 (amended): the handler has no already-completed guard: a keypad
submission with a valid payload on a token whose request is already
`completed` (and not past the expiry gate) succeeds exactly like a first
submission, committing a row whose payload fields and submission timestamp
are overwritten with the new submission's values. -/
theorem c1_resubmit_overwrites (store : List FuelRequest) (link : String)
    (form : UploadForm) (tNow tSub : Nat) (fr : FuelRequest)
    (hfind : findRequest store link = some fr)
    (_hdone : fr.status = "completed")
    (hexp : ¬ fr.expiresAt < tNow)
    (hpt : form.phoneType = some "keypad")
    (hval : ValidManualForm form.manual) :
    upload_documents store link .post form tNow tSub =
      (.manualSuccess,
       updateRequest store (keypadCompleted fr form.manual tSub)) ∧
    (keypadCompleted fr form.manual tSub).idDetails =
      some (strip form.manual.idDetails) ∧
    (keypadCompleted fr form.manual tSub).submissionTimestamp = some tSub := by
  refine ⟨?_, rfl, rfl⟩
  rw [upload_documents_found store link .post form tNow tSub fr hfind]
  exact handleRequest_keypad_valid store fr form tNow tSub hexp hpt hval

theorem c1_resubmit_overwrites_witness :
    upload_documents [c1Completed] "tok" .post (keypadForm c1SecondManual)
        20 20 =
      (.manualSuccess,
       updateRequest [c1Completed]
         (keypadCompleted c1Completed c1SecondManual 20)) ∧
    (keypadCompleted c1Completed c1SecondManual 20).idDetails =
      some (strip c1SecondManual.idDetails) ∧
    (keypadCompleted c1Completed c1SecondManual 20).submissionTimestamp =
      some 20 :=
  c1_resubmit_overwrites [c1Completed] "tok" (keypadForm c1SecondManual)
    20 20 c1Completed (by decide) (by decide) (by decide) (by decide)
    (by decide)

/-- C2: counterexample to rejection at `time ≥ expiry`.  `pendingDemo`
expires at `hours48`; an access exactly at that instant satisfies
`time ≥ expiry`, yet the render entry point serves the form instead of the
expired page, and a submission at that instant succeeds and mutates the row
(the gate is the strict comparison `expires_at < now`). -/
theorem c2_at_expiry_counterexample :
    pendingDemo.expiresAt = hours48 ∧
    upload_documents [pendingDemo] "tok" .get (keypadForm demoManual)
        hours48 hours48 = (.renderForm, [pendingDemo]) ∧
    upload_documents [pendingDemo] "tok" .post (keypadForm demoManual)
        hours48 hours48 =
      (.manualSuccess, [keypadCompleted pendingDemo demoManual hours48]) ∧
    [keypadCompleted pendingDemo demoManual hours48] ≠ [pendingDemo] := by
  refine ⟨rfl, by decide, by decide, by decide⟩

/-- C2 (amended): strictly after expiry (`time > expiry`, the code's
`expires_at < now`), both the read and the write entry points reject the
access with the expired outcome (HTTP 410) and the table is unchanged, so a
submission attempted there mutates no stored field. -/
theorem c2_past_expiry_rejected (store : List FuelRequest) (link : String)
    (method : HttpMethod) (form : UploadForm) (tNow tSub : Nat)
    (fr : FuelRequest) (hfind : findRequest store link = some fr)
    (hexp : fr.expiresAt < tNow) :
    upload_documents store link method form tNow tSub = (.expired, store) ∧
    httpStatus .expired = 410 := by
  refine ⟨?_, rfl⟩
  rw [upload_documents_found store link method form tNow tSub fr hfind]
  unfold handleRequest
  rw [if_pos hexp]

theorem c2_past_expiry_rejected_witness :
    upload_documents [pendingDemo] "tok" .post (keypadForm demoManual)
        (hours48 + 1) (hours48 + 1) = (.expired, [pendingDemo]) ∧
    httpStatus .expired = 410 :=
  c2_past_expiry_rejected [pendingDemo] "tok" .post (keypadForm demoManual)
    (hours48 + 1) (hours48 + 1) pendingDemo (by decide) (by decide)

/-- C3: counterexample to exact 48-hour spacing between the stored creation
and expiry timestamps.  Issuing at `now()`-read 0 with `utcnow()`-read 1
succeeds, but the stored row has `expires_at = 0 + 48h` while
`created_at = 1`, so `expiry ≠ creation_time + 48h`. -/
theorem c3_two_clock_reads_counterexample :
    send_sms_request_for_client [] demoClient 1 "tok" 0 1 =
      (.issued (mkFuelRequest 1 demoClient "tok" 0 1),
       [mkFuelRequest 1 demoClient "tok" 0 1]) ∧
    (mkFuelRequest 1 demoClient "tok" 0 1).expiresAt ≠
      (mkFuelRequest 1 demoClient "tok" 0 1).createdAt + hours48 := by
  constructor
  · decide
  · decide

/-- C3 (amended): the stored expiry equals the `datetime.now()` clock read at
issuance plus exactly 48 hours, but the stored creation timestamp comes from
a separate `datetime.utcnow` read at flush time, so
`expiry = creation_time + 48h` holds exactly when the two reads coincide. -/
theorem c3_expiry_from_issue_clock (store : List FuelRequest)
    (client : Client) (reqId : Nat) (link : String) (tNow tUtc : Nat)
    (h : client.gdprConsent = true) :
    send_sms_request_for_client store client reqId link tNow tUtc =
      (.issued (mkFuelRequest reqId client link tNow tUtc),
       store ++ [mkFuelRequest reqId client link tNow tUtc]) ∧
    (mkFuelRequest reqId client link tNow tUtc).expiresAt = tNow + hours48 ∧
    (mkFuelRequest reqId client link tNow tUtc).createdAt = tUtc ∧
    ((mkFuelRequest reqId client link tNow tUtc).expiresAt =
        (mkFuelRequest reqId client link tNow tUtc).createdAt + hours48 ↔
      tNow = tUtc) := by
  refine ⟨by simp [send_sms_request_for_client, h], rfl, rfl, ?_⟩
  simp [mkFuelRequest]

theorem c3_expiry_from_issue_clock_witness :
    send_sms_request_for_client [] demoClient 1 "tok" 7 7 =
      (.issued (mkFuelRequest 1 demoClient "tok" 7 7),
       [mkFuelRequest 1 demoClient "tok" 7 7]) ∧
    (mkFuelRequest 1 demoClient "tok" 7 7).expiresAt = 7 + hours48 ∧
    (mkFuelRequest 1 demoClient "tok" 7 7).createdAt = 7 ∧
    ((mkFuelRequest 1 demoClient "tok" 7 7).expiresAt =
        (mkFuelRequest 1 demoClient "tok" 7 7).createdAt + hours48 ↔
      (7 : Nat) = 7) :=
  c3_expiry_from_issue_clock [] demoClient 1 "tok" 7 7 (by decide)

/-- C4: counterexample to the minimum-length rule.  A keypad submission whose
`id_details` is the 5-character string "short" (non-empty but far below 10
characters) is not rejected: it succeeds and mutates the request. -/
theorem c4_short_id_details_counterexample :
    (strip c4ShortManual.idDetails).length < 10 ∧
    strip c4ShortManual.idDetails ≠ "" ∧
    upload_documents [pendingDemo] "tok" .post (keypadForm c4ShortManual)
        10 10 = (.manualSuccess, [keypadCompleted pendingDemo c4ShortManual 10]) ∧
    isValidationError
      (upload_documents [pendingDemo] "tok" .post (keypadForm c4ShortManual)
        10 10).1 = false ∧
    [keypadCompleted pendingDemo c4ShortManual 10] ≠ [pendingDemo] := by
  refine ⟨by decide, by decide, by decide, by decide, by decide⟩

/-- C4 (amended): the keypad branch enforces only non-emptiness of the
stripped `id_details`, not a 10-character minimum.  A missing or empty
`id_details` yields the generic validation message "Please fill in all
required fields" (which does not name `id_details`) and leaves the table
unchanged; any non-empty value passes this check. -/
theorem c4_empty_id_details_generic_error (store : List FuelRequest)
    (link : String) (form : UploadForm) (tNow tSub : Nat) (fr : FuelRequest)
    (hfind : findRequest store link = some fr)
    (hexp : ¬ fr.expiresAt < tNow)
    (hpt : form.phoneType = some "keypad")
    (hempty : strip form.manual.idDetails = "") :
    upload_documents store link .post form tNow tSub =
      (.validationError "Please fill in all required fields", store) := by
  rw [upload_documents_found store link .post form tNow tSub fr hfind]
  unfold handleRequest
  rw [if_neg hexp]
  simp [hpt, processKeypad_missing fr form.manual tSub
    (Or.inr (Or.inr (Or.inr (Or.inr hempty))))]

theorem c4_empty_id_details_generic_error_witness :
    upload_documents [pendingDemo] "tok" .post
        (keypadForm { demoManual with idDetails := "" }) 10 10 =
      (.validationError "Please fill in all required fields", [pendingDemo]) :=
  c4_empty_id_details_generic_error [pendingDemo] "tok"
    (keypadForm { demoManual with idDetails := "" }) 10 10 pendingDemo
    (by decide) (by decide) (by decide) (by decide)

/-- C5: counterexample to the mandatory sub-type rule.  A keypad submission
with identity-document type "other" and an empty free-text sub-type is not
rejected: it succeeds, the request transitions to `completed`, and the
stored type is the literal string "other". -/
theorem c5_other_subtype_counterexample :
    strip c5OtherManual.idType = "other" ∧
    strip c5OtherManual.otherIdType = "" ∧
    upload_documents [pendingDemo] "tok" .post (keypadForm c5OtherManual)
        10 10 = (.manualSuccess, [keypadCompleted pendingDemo c5OtherManual 10]) ∧
    (keypadCompleted pendingDemo c5OtherManual 10).status = "completed" ∧
    (keypadCompleted pendingDemo c5OtherManual 10).idType = some "other" := by
  refine ⟨by decide, by decide, by decide, by decide, by decide⟩

/-- C5 (amended): when the identity-document type is "other" and the
free-text sub-type is empty, the merge step leaves the type as the non-empty
literal "other", so the requiredness check passes: the submission is
accepted, the request transitions to `completed`, and `id_type` is stored
as "other".  The sub-type is appended only when non-empty, never required. -/
theorem c5_other_empty_subtype_accepted (store : List FuelRequest)
    (link : String) (form : UploadForm) (tNow tSub : Nat) (fr : FuelRequest)
    (hfind : findRequest store link = some fr)
    (hexp : ¬ fr.expiresAt < tNow)
    (hpt : form.phoneType = some "keypad")
    (hother : strip form.manual.idType = "other")
    (hsub : strip form.manual.otherIdType = "")
    (hval : ValidManualForm form.manual) :
    upload_documents store link .post form tNow tSub =
      (.manualSuccess,
       updateRequest store (keypadCompleted fr form.manual tSub)) ∧
    (keypadCompleted fr form.manual tSub).idType = some "other" ∧
    (keypadCompleted fr form.manual tSub).status = "completed" := by
  refine ⟨?_, ?_, rfl⟩
  · rw [upload_documents_found store link .post form tNow tSub fr hfind]
    exact handleRequest_keypad_valid store fr form tNow tSub hexp hpt hval
  · simp [keypadCompleted, effective_id_type, hother, hsub]

theorem c5_other_empty_subtype_accepted_witness :
    upload_documents [pendingDemo] "tok" .post (keypadForm c5OtherManual)
        10 10 =
      (.manualSuccess,
       updateRequest [pendingDemo]
         (keypadCompleted pendingDemo c5OtherManual 10)) ∧
    (keypadCompleted pendingDemo c5OtherManual 10).idType = some "other" ∧
    (keypadCompleted pendingDemo c5OtherManual 10).status = "completed" :=
  c5_other_empty_subtype_accepted [pendingDemo] "tok"
    (keypadForm c5OtherManual) 10 10 pendingDemo (by decide) (by decide)
    (by decide) (by decide) (by decide) (by decide)

/-- C6: photo-path behaviour on a valid, unexpired token with both file
parts present: if either filename fails the extension allow-list
{png, jpg, jpeg, gif} (as a `.txt` name does), the POST returns a validation
error and the table is unchanged; if both files are non-empty and their
names end in ".jpg", the POST succeeds and commits the row with
`documents_uploaded = true` and `status = 'completed'`. -/
theorem c6_photo_path (store : List FuelRequest) (link : String)
    (form : UploadForm) (tNow tSub : Nat) (fr : FuelRequest)
    (mf idf : UploadedFile) (b1 b2 : List Char)
    (hfind : findRequest store link = some fr)
    (hexp : ¬ fr.expiresAt < tNow)
    (hpt : form.phoneType = some "smartphone")
    (hmf : form.meterReading = some mf)
    (hidf : form.identityPhoto = some idf) :
    ((allowed_file mf.filename = false ∨ allowed_file idf.filename = false) →
      isValidationError
        (upload_documents store link .post form tNow tSub).1 = true ∧
      (upload_documents store link .post form tNow tSub).2 = store) ∧
    (mf.filename.data = b1 ++ ('.' :: 'j' :: 'p' :: 'g' :: []) →
      idf.filename.data = b2 ++ ('.' :: 'j' :: 'p' :: 'g' :: []) →
      0 < mf.size → 0 < idf.size →
      upload_documents store link .post form tNow tSub =
        (.photoSuccess, updateRequest store (photoCompleted fr tSub)) ∧
      (photoCompleted fr tSub).documentsUploaded = true ∧
      (photoCompleted fr tSub).status = "completed") := by
  have hbase : upload_documents store link .post form tNow tSub =
      handleRequest store fr .post form tNow tSub :=
    upload_documents_found store link .post form tNow tSub fr hfind
  have hsm := handleRequest_smartphone store fr form tNow tSub hexp hpt
  constructor
  · intro hbad
    by_cases hemp : mf.filename = "" ∨ idf.filename = ""
    · rw [hbase, hsm, hmf, hidf,
        processSmartphone_empty_name fr mf idf tSub hemp]
      exact ⟨rfl, rfl⟩
    · rw [hbase, hsm, hmf, hidf,
        processSmartphone_ext_rejected fr mf idf tSub hemp hbad]
      exact ⟨rfl, rfl⟩
  · intro hjpg1 hjpg2 _ _
    rw [hbase, hsm, hmf, hidf,
      processSmartphone_ok fr mf idf tSub
        (ne_empty_of_jpg mf.filename b1 hjpg1)
        (ne_empty_of_jpg idf.filename b2 hjpg2)
        (allowed_file_of_jpg mf.filename b1 hjpg1)
        (allowed_file_of_jpg idf.filename b2 hjpg2)]
    exact ⟨rfl, rfl, rfl⟩

theorem c6_photo_path_witness :
    (isValidationError
        (upload_documents [pendingDemo] "tok" .post c6TxtForm 10 10).1 = true ∧
      (upload_documents [pendingDemo] "tok" .post c6TxtForm 10 10).2 =
        [pendingDemo]) ∧
    (upload_documents [pendingDemo] "tok" .post c6PhotoForm 10 10 =
        (.photoSuccess, updateRequest [pendingDemo] (photoCompleted pendingDemo 10)) ∧
      (photoCompleted pendingDemo 10).documentsUploaded = true ∧
      (photoCompleted pendingDemo 10).status = "completed") :=
  ⟨(c6_photo_path [pendingDemo] "tok" c6TxtForm 10 10 pendingDemo
      c6TxtMeter c6Identity [] [] (by decide) (by decide) (by decide)
      (by decide) (by decide)).1 (Or.inl (by decide)),
   (c6_photo_path [pendingDemo] "tok" c6PhotoForm 10 10 pendingDemo
      c6Meter c6Identity "meter".data "identity".data (by decide) (by decide)
      (by decide) (by decide) (by decide)).2 (by decide) (by decide)
      (by decide) (by decide)⟩

/-- C7: if a client's consent flag is false, the issue operation fails with
the consent-required outcome and performs no mutation: the request table is
returned unchanged, so no fuel request is created and no existing row is
touched. -/
theorem c7_consent_required (store : List FuelRequest) (client : Client)
    (reqId : Nat) (link : String) (tNow tUtc : Nat)
    (h : client.gdprConsent = false) :
    send_sms_request_for_client store client reqId link tNow tUtc =
      (.consentRequired, store) := by
  simp [send_sms_request_for_client, h]

theorem c7_consent_required_witness :
    send_sms_request_for_client [pendingDemo] noConsentClient 2 "tok2" 5 5 =
      (.consentRequired, [pendingDemo]) :=
  c7_consent_required [pendingDemo] noConsentClient 2 "tok2" 5 5 (by decide)

/-- C8: counterexample to at-most-one successful completion with rejection of
the loser.  Two submissions against the same token, serialized one after the
other, both return success; the second is not rejected with an
already-completed error and its commit replaces the first submission's
stored meter reading. -/
theorem c8_double_submit_counterexample :
    upload_documents [pendingDemo] "tok" .post (keypadForm c8FirstManual)
        10 10 = (.manualSuccess, [c8Winner]) ∧
    upload_documents [c8Winner] "tok" .post (keypadForm c8SecondManual)
        11 11 =
      (.manualSuccess, [keypadCompleted c8Winner c8SecondManual 11]) ∧
    isValidationError
      (upload_documents [c8Winner] "tok" .post (keypadForm c8SecondManual)
        11 11).1 = false ∧
    (keypadCompleted c8Winner c8SecondManual 11).meterReadingText ≠
      c8Winner.meterReadingText := by
  refine ⟨by decide, by decide, by decide, by decide⟩

/-- C8 (amended): the commit carries no status-conditional guard: in any
serial execution of two valid keypad submissions on the same unexpired
token, both calls return success; the later call is not rejected and its
commit overwrites the earlier submission's payload (last writer wins). -/
theorem c8_serial_double_submit_overwrites (fr : FuelRequest) (link : String)
    (f1 f2 : UploadForm) (tN1 tS1 tN2 tS2 : Nat)
    (hlink : fr.uniqueLink = link)
    (hexp1 : ¬ fr.expiresAt < tN1) (hexp2 : ¬ fr.expiresAt < tN2)
    (hpt1 : f1.phoneType = some "keypad")
    (hpt2 : f2.phoneType = some "keypad")
    (hv1 : ValidManualForm f1.manual) (hv2 : ValidManualForm f2.manual) :
    upload_documents [fr] link .post f1 tN1 tS1 =
      (.manualSuccess, [keypadCompleted fr f1.manual tS1]) ∧
    upload_documents [keypadCompleted fr f1.manual tS1] link .post f2
        tN2 tS2 =
      (.manualSuccess,
       [keypadCompleted (keypadCompleted fr f1.manual tS1) f2.manual tS2]) ∧
    (keypadCompleted (keypadCompleted fr f1.manual tS1) f2.manual
        tS2).meterReadingText = some (strip f2.manual.meterReadingText) := by
  have hfind1 : findRequest [fr] link = some fr :=
    findRequest_singleton fr link hlink
  have hfind2 : findRequest [keypadCompleted fr f1.manual tS1] link =
      some (keypadCompleted fr f1.manual tS1) :=
    findRequest_singleton _ link
      ((keypadCompleted_uniqueLink fr f1.manual tS1).trans hlink)
  have hexp2' : ¬ (keypadCompleted fr f1.manual tS1).expiresAt < tN2 := by
    rw [keypadCompleted_expiresAt]
    exact hexp2
  refine ⟨?_, ?_, rfl⟩
  · rw [upload_documents_found [fr] link .post f1 tN1 tS1 fr hfind1,
      handleRequest_keypad_valid [fr] fr f1 tN1 tS1 hexp1 hpt1 hv1,
      updateRequest_singleton fr (keypadCompleted fr f1.manual tS1) rfl]
  · rw [upload_documents_found [keypadCompleted fr f1.manual tS1] link .post
        f2 tN2 tS2 (keypadCompleted fr f1.manual tS1) hfind2,
      handleRequest_keypad_valid [keypadCompleted fr f1.manual tS1]
        (keypadCompleted fr f1.manual tS1) f2 tN2 tS2 hexp2' hpt2 hv2,
      updateRequest_singleton (keypadCompleted fr f1.manual tS1)
        (keypadCompleted (keypadCompleted fr f1.manual tS1) f2.manual tS2)
        rfl]

theorem c8_serial_double_submit_overwrites_witness :
    upload_documents [pendingDemo] "tok" .post (keypadForm c8FirstManual)
        10 10 = (.manualSuccess, [keypadCompleted pendingDemo c8FirstManual 10]) ∧
    upload_documents [keypadCompleted pendingDemo c8FirstManual 10] "tok"
        .post (keypadForm c8SecondManual) 11 11 =
      (.manualSuccess,
       [keypadCompleted (keypadCompleted pendingDemo c8FirstManual 10)
          c8SecondManual 11]) ∧
    (keypadCompleted (keypadCompleted pendingDemo c8FirstManual 10)
        c8SecondManual 11).meterReadingText =
      some (strip c8SecondManual.meterReadingText) :=
  c8_serial_double_submit_overwrites pendingDemo "tok"
    (keypadForm c8FirstManual) (keypadForm c8SecondManual) 10 10 11 11
    (by decide) (by decide) (by decide) (by decide) (by decide) (by decide)
    (by decide)

/-- C9: the modelled operations preserve the invariant that a request's
status is `completed` exactly when its `documents_uploaded` flag is true:
issuance adds a row with status `pending` and the flag false, and every
outcome of the upload handler (success on either path, every failure branch,
and the fall-through) leaves a table on which the invariant still holds,
because each successful submission commits `completed` and `true` together
in the same row update. -/
theorem c9_status_docs_invariant (store : List FuelRequest) (client : Client)
    (reqId : Nat) (link link2 : String) (tNow tUtc tNow2 tSub : Nat)
    (method : HttpMethod) (form : UploadForm)
    (hinv : StoreInv store) :
    ((mkFuelRequest reqId client link tNow tUtc).status = "pending" ∧
     (mkFuelRequest reqId client link tNow tUtc).documentsUploaded = false) ∧
    StoreInv (send_sms_request_for_client store client reqId link tNow tUtc).2 ∧
    StoreInv (upload_documents store link2 method form tNow2 tSub).2 := by
  refine ⟨⟨rfl, rfl⟩, ?_, ?_⟩
  · unfold send_sms_request_for_client
    by_cases hc : client.gdprConsent = false
    · rw [if_pos hc]
      exact hinv
    · rw [if_neg hc]
      intro fr hfr
      rcases List.mem_append.mp hfr with h | h
      · exact hinv fr h
      · rw [List.mem_singleton.mp h]
        exact statusDocsInv_mkFuelRequest reqId client link tNow tUtc
  · cases hfind : findRequest store link2 with
    | none =>
      rw [upload_documents_notFound store link2 method form tNow2 tSub hfind]
      exact hinv
    | some fr =>
      rw [upload_documents_found store link2 method form tNow2 tSub fr hfind]
      unfold handleRequest
      by_cases hexp : fr.expiresAt < tNow2
      · rw [if_pos hexp]
        exact hinv
      · rw [if_neg hexp]
        cases method with
        | get => exact hinv
        | post =>
          by_cases h1 : form.phoneType = some "keypad"
          · rw [if_pos h1]
            rcases processKeypad_cases fr form.manual tSub with hk | ⟨msg, hk⟩
            · rw [hk]
              intro r hr
              rcases mem_updateRequest store _ r hr with hr' | hr'
              · rw [hr']
                exact statusDocsInv_keypadCompleted fr form.manual tSub
              · exact hinv r hr'
            · rw [hk]
              exact hinv
          · rw [if_neg h1]
            by_cases h2 : form.phoneType = some "smartphone"
            · rw [if_pos h2]
              rcases processSmartphone_cases fr form.meterReading
                  form.identityPhoto tSub with hk | ⟨msg, hk⟩
              · rw [hk]
                intro r hr
                rcases mem_updateRequest store _ r hr with hr' | hr'
                · rw [hr']
                  exact statusDocsInv_photoCompleted fr tSub
                · exact hinv r hr'
              · rw [hk]
                exact hinv
            · rw [if_neg h2]
              exact hinv

theorem c9_status_docs_invariant_witness :
    ((mkFuelRequest 2 demoClient "tok9" 3 3).status = "pending" ∧
     (mkFuelRequest 2 demoClient "tok9" 3 3).documentsUploaded = false) ∧
    StoreInv (send_sms_request_for_client [pendingDemo] demoClient 2 "tok9"
      3 3).2 ∧
    StoreInv (upload_documents [pendingDemo] "tok" .post
      (keypadForm demoManual) 10 10).2 :=
  c9_status_docs_invariant [pendingDemo] demoClient 2 "tok9" "tok" 3 3 10 10
    .post (keypadForm demoManual) (by decide)

/-- C10: a POST on a valid, unexpired token whose `phone_type` matches
neither `'keypad'` nor `'smartphone'` (including a missing `phone_type`)
matches no handler branch: nothing is mutated — the table is returned
unchanged — and the handler falls through to re-rendering the upload form
with HTTP 200 and no flashed error, silently dropping the submission. -/
theorem c10_unknown_phone_type_noop (store : List FuelRequest)
    (link : String) (form : UploadForm) (tNow tSub : Nat) (fr : FuelRequest)
    (hfind : findRequest store link = some fr)
    (hexp : ¬ fr.expiresAt < tNow)
    (h1 : form.phoneType ≠ some "keypad")
    (h2 : form.phoneType ≠ some "smartphone") :
    upload_documents store link .post form tNow tSub = (.renderForm, store) ∧
    httpStatus .renderForm = 200 ∧ isValidationError .renderForm = false := by
  refine ⟨?_, rfl, rfl⟩
  rw [upload_documents_found store link .post form tNow tSub fr hfind]
  unfold handleRequest
  rw [if_neg hexp]
  simp only [if_neg h1, if_neg h2]

theorem c10_unknown_phone_type_noop_witness :
    upload_documents [pendingDemo] "tok" .post
        { phoneType := none, manual := demoManual,
          meterReading := none, identityPhoto := none } 10 10 =
      (.renderForm, [pendingDemo]) ∧
    httpStatus .renderForm = 200 ∧ isValidationError .renderForm = false :=
  c10_unknown_phone_type_noop [pendingDemo] "tok"
    { phoneType := none, manual := demoManual,
      meterReading := none, identityPhoto := none } 10 10 pendingDemo
    (by decide) (by decide) (by decide) (by decide)

end FoodBank
